import Mathlib

/-!
Verification of the `react-3d-model-viewer` repository against its
natural-language specification.

The development shallowly embeds the parts of
`src/components/ModelViewer.tsx` and `src/components/ErrorBoundary.tsx`
that the claims are about:

* the scene-normalization effects of the three model components
  (`Model`, `Model2`, `Model3`): bounding-box computation, centering,
  uniform scale-to-fit with `targetSize = 8`, the 90-degree X rotation
  and (for `Model` only) the `0.25 * size.y` height offset;
* the highlight state machine spread over each component's `handleClick`
  and the shell's `handleMeshClick`, including the material mutations,
  the recorded original materials, and the 2000 ms auto-revert timeout
  with the value it captures from the enclosing render closure;
* the viewer-shell state transitions (`handleModelSelect`,
  `handleModelError`, `handleModelLoad`, `handleResetView`), the
  `ErrorBoundary` message fallback, and the `disabled={loading}`
  model-selection buttons;
* the missing-scene-root render branches of the three components;
* the material sharing between a scene and its `clone()`, and the
  default gray recolor that `Model` applies to the (shared) materials.

Geometry is over `ℚ`: every transform the source applies is a
composition of translations, axis-aligned scalings and exact
quarter-turn rotations about the X axis, so rational arithmetic models
the source's vector math exactly, and the axis-aligned bounding box of
a transformed box is computed exactly from the images of its two
extreme corners (each output coordinate of such a transform is an
affine function of a single input coordinate).
-/

/-- A 3-component vector with rational coordinates, standing for
`THREE.Vector3`. -/
structure Vec3 where
  x : ℚ
  y : ℚ
  z : ℚ
deriving DecidableEq, Repr

instance : Add Vec3 := ⟨fun a b => ⟨a.x + b.x, a.y + b.y, a.z + b.z⟩⟩

instance : Sub Vec3 := ⟨fun a b => ⟨a.x - b.x, a.y - b.y, a.z - b.z⟩⟩

/-- Componentwise (Hadamard) product, as used when a non-uniform scale
is applied to a vector. -/
def Vec3.hmul (a b : Vec3) : Vec3 := ⟨a.x * b.x, a.y * b.y, a.z * b.z⟩

/-- Scalar multiple. -/
def Vec3.smul (c : ℚ) (v : Vec3) : Vec3 := ⟨c * v.x, c * v.y, c * v.z⟩

/-- Componentwise minimum. -/
def Vec3.inf (a b : Vec3) : Vec3 := ⟨min a.x b.x, min a.y b.y, min a.z b.z⟩

/-- Componentwise maximum. -/
def Vec3.sup (a b : Vec3) : Vec3 := ⟨max a.x b.x, max a.y b.y, max a.z b.z⟩

/-- One exact quarter turn (90 degrees, `Math.PI / 2` radians) about
the X axis: `(x, y, z) ↦ (x, -z, y)`. -/
def rotX90 (v : Vec3) : Vec3 := ⟨v.x, -v.z, v.y⟩

/-- Rotation about the X axis by `quarters` quarter turns.  The source
only ever sets `rotation.x` to `0` or `Math.PI / 2`, both of which are
exact quarter-turn multiples, so this models every rotation the code
applies without trigonometry. -/
def applyRotX (quarters : ℤ) (v : Vec3) : Vec3 :=
  Nat.iterate rotX90 ((quarters % 4).toNat) v

/-- The local transform of a `THREE.Object3D`: `matrix = T * R * S`
(position applied last, the object's own scale does not affect its own
position). -/
structure Xform where
  position : Vec3
  scaleV : Vec3
  rotXQuarters : ℤ
deriving DecidableEq, Repr

/-- Apply an object transform to a point, following the Three.js
composition order `translate ∘ rotate ∘ scale`. -/
def Xform.apply (t : Xform) (v : Vec3) : Vec3 :=
  t.position + applyRotX t.rotXQuarters (Vec3.hmul t.scaleV v)

/-- An axis-aligned bounding box (`THREE.Box3`). -/
structure Box3 where
  min : Vec3
  max : Vec3
deriving DecidableEq, Repr

/-- `Box3.getSize`: per-axis extent `max - min`. -/
def Box3.getSize (b : Box3) : Vec3 := b.max - b.min

/-- `Box3.getCenter`: midpoint `(min + max) * 0.5`. -/
def Box3.getCenter (b : Box3) : Vec3 := Vec3.smul (1 / 2) (b.min + b.max)

/-- Image of an axis-aligned box under an object transform, as an
axis-aligned box.  For every transform occurring in the source (a
translation composed with an axis-aligned scaling and exact quarter
turns about X) each output coordinate is an affine function of exactly
one input coordinate, so the axis-aligned bounding box of the image is
obtained exactly from the images of the two extreme corners. -/
def boxUnder (t : Xform) (b : Box3) : Box3 :=
  let a := t.apply b.min
  let c := t.apply b.max
  ⟨Vec3.inf a c, Vec3.sup a c⟩

/-- A scene-graph node as the normalization code observes it: its own
transform plus the axis-aligned bounding box of its geometric content
expressed in the node's local frame. -/
structure Object3D where
  xf : Xform
  content : Box3
deriving DecidableEq, Repr

/-- `new THREE.Box3().setFromObject(node)` with the node mounted under
an identity parent: the world-space bounding box of the node's content
under the node's current transform. -/
def worldBox (o : Object3D) : Box3 := boxUnder o.xf o.content

/-- World bounding box of a child object mounted under a group, as
`Box3.setFromObject` would compute it after the group's transform is
applied. -/
def worldBoxGrouped (g : Xform) (child : Object3D) : Box3 :=
  boxUnder g (worldBox child)

/-- A freshly decoded and cloned glTF scene root: identity scale and
rotation (as glTF scene roots carry), arbitrary position, and the given
content bounding box. -/
def freshScene (p0 mn mx : Vec3) : Object3D :=
  { xf := { position := p0, scaleV := ⟨1, 1, 1⟩, rotXQuarters := 0 }
    content := ⟨mn, mx⟩ }

/-- `Math.max(size.x, size.y, size.z)`. -/
def maxDim3 (v : Vec3) : ℚ := max v.x (max v.y v.z)

/-- The `targetSize` constant of all three components. -/
def targetSize : ℚ := 8

/-- Normalization effect of the `Model` component
(`ModelViewer.tsx` lines 44-67): measure the world box, subtract the
center from the node's own position, set the node's own scale to
`targetSize / maxDim` (or `1` when `maxDim` is not positive), set
`rotation.x = Math.PI / 2`, then add `size.y * 0.25` to the node's
`position.y`. -/
def normalizeModel (s : Object3D) : Object3D :=
  let box := worldBox s
  let size := box.getSize
  let center := box.getCenter
  let s1 : Object3D := { s with xf := { s.xf with position := s.xf.position - center } }
  let maxDim := maxDim3 size
  let scale := if 0 < maxDim then targetSize / maxDim else 1
  let s2 : Object3D := { s1 with xf := { s1.xf with scaleV := ⟨scale, scale, scale⟩ } }
  let s3 : Object3D := { s2 with xf := { s2.xf with rotXQuarters := 1 } }
  let heightOffset := size.y * (1 / 4)
  { s3 with
    xf := { s3.xf with
      position := ⟨s3.xf.position.x, s3.xf.position.y + heightOffset, s3.xf.position.z⟩ } }

/-- Normalization effect of the `Model2` component
(`ModelViewer.tsx` lines 166-191): wrap the cloned scene in a fresh
`centerGroup`, measure the child's world box, subtract the center from
the child's position, then set the group's scale to
`targetSize / maxDim` (or `1`) and the group's `rotation.x` to
`Math.PI / 2`.  Returns `(centerGroup transform, child)`.  No height
offset is applied. -/
def normalizeModel2 (s : Object3D) : Xform × Object3D :=
  let box := worldBox s
  let size := box.getSize
  let center := box.getCenter
  let child : Object3D := { s with xf := { s.xf with position := s.xf.position - center } }
  let maxDim := maxDim3 size
  let scale := if 0 < maxDim then targetSize / maxDim else 1
  let g : Xform := { position := ⟨0, 0, 0⟩, scaleV := ⟨scale, scale, scale⟩, rotXQuarters := 1 }
  (g, child)

/-- Normalization effect of the `Model3` component
(`ModelViewer.tsx` lines 276-300); the source duplicates `Model2`'s
group-based routine verbatim, with no height offset. -/
def normalizeModel3 (s : Object3D) : Xform × Object3D :=
  let box := worldBox s
  let size := box.getSize
  let center := box.getCenter
  let child : Object3D := { s with xf := { s.xf with position := s.xf.position - center } }
  let maxDim := maxDim3 size
  let scale := if 0 < maxDim then targetSize / maxDim else 1
  let g : Xform := { position := ⟨0, 0, 0⟩, scaleV := ⟨scale, scale, scale⟩, rotXQuarters := 1 }
  (g, child)

/-- A concrete loaded scene: content box `[1,3]×[1,3]×[1,3]`, identity
root transform. -/
def sceneEx : Object3D := freshScene ⟨0, 0, 0⟩ ⟨1, 1, 1⟩ ⟨3, 3, 3⟩

/-! ## Highlight state machine

`Model.handleClick` (`ModelViewer.tsx` lines 81-109) and the shell's
`handleMeshClick` (lines 387-408) run synchronously inside one click
event.  Materials are compared by object identity in the source
(`mesh.material === highlightMaterial`), so every
`new THREE.MeshStandardMaterial(...)` is modelled as a `Mat.hl` value
with a fresh serial number, distinct from every earlier material.
React state reads inside an event handler see the values of the render
the handler was created in; renders are committed between events, so at
event time those values are the current committed state.  The value of
`originalMaterial` that the 2000 ms `setTimeout` callback later reads
is the one captured by the closure of the render that created the
handler, i.e. the component state from before the click that scheduled
it. -/

/-- A material reference: `base id` for materials present in the loaded
asset, `hl serial` for a highlight material instance created by a
click. -/
inductive Mat where
  | base (id : Nat)
  | hl (serial : Nat)
deriving DecidableEq, Repr

/-- One scheduled auto-revert timeout: the clicked part, the component
highlight material instance assigned by that click (compared by
identity in the guard), the `originalMaterial` value captured by the
render closure that scheduled it, and the delay in milliseconds. -/
structure TimeoutRec where
  part : Nat
  hlMat : Mat
  captured : Option Mat
  delayMs : Nat
deriving DecidableEq, Repr

/-- Joint state of the mounted model component and the viewer shell:
`material` is each part's current `mesh.material` (an `Option` because
the stale-closure restore can write `null`); `highlightedMesh` and
`originalMaterial` are the component's React state; `selectedMesh` is
the shell's `SelectedMesh` state; `fresh` feeds serial numbers for new
material instances; `pending` lists scheduled timeouts in order. -/
structure ViewerState where
  material : Nat → Option Mat
  highlightedMesh : Option Nat
  originalMaterial : Option Mat
  selectedMesh : Option (Nat × Option Mat)
  fresh : Nat
  pending : List TimeoutRec

/-- Pointwise update of the material table (a single
`mesh.material = m` assignment). -/
def setMat (f : Nat → Option Mat) (p : Nat) (m : Option Mat) : Nat → Option Mat :=
  fun q => if q = p then m else f q

/-- The full synchronous flow of a click on part `p`
(`ModelViewer.tsx` lines 81-109 with the nested call into lines
387-408): restore the component's previous highlight, read the clicked
mesh's current material (recorded as the new original and passed to
`onMeshClick`), create the component highlight material, run the
shell's `handleMeshClick` (restore the shell's previous selection,
assign the shell's own fresh highlight material, record the new
selection), then assign the component highlight material and schedule
the 2000 ms timeout capturing the pre-click `originalMaterial`. -/
def handleClick (p : Nat) (s : ViewerState) : ViewerState :=
  let mat1 := match s.highlightedMesh, s.originalMaterial with
    | some q, some om => setMat s.material q (some om)
    | _, _ => s.material
  let newOriginal := mat1 p
  let compHL := Mat.hl s.fresh
  let shellHL := Mat.hl (s.fresh + 1)
  let mat2 := match s.selectedMesh with
    | some (q, om) => setMat mat1 q om
    | none => mat1
  let mat3 := setMat mat2 p (some shellHL)
  let mat4 := setMat mat3 p (some compHL)
  { material := mat4
    highlightedMesh := some p
    originalMaterial := newOriginal
    selectedMesh := some (p, newOriginal)
    fresh := s.fresh + 2
    pending := s.pending ++ [⟨p, compHL, s.originalMaterial, 2000⟩] }

/-- Firing of one scheduled timeout (`ModelViewer.tsx` lines 101-107):
if the part's material is still (identically) the highlight material
assigned by the scheduling click, write back the captured
`originalMaterial` value and reset the component highlight state;
otherwise do nothing. -/
def fireTimeout (t : TimeoutRec) (s : ViewerState) : ViewerState :=
  if s.material t.part = some t.hlMat then
    { s with
      material := setMat s.material t.part t.captured
      highlightedMesh := none
      originalMaterial := none }
  else s

/-- A freshly mounted viewer over parts whose materials are the loaded
asset's own: part `q` carries material `base q`. -/
def initialViewer : ViewerState :=
  { material := fun q => some (Mat.base q)
    highlightedMesh := none
    originalMaterial := none
    selectedMesh := none
    fresh := 0
    pending := [] }

/-! ## Viewer shell -/

/-- Camera state owned by the `OrbitControls` rig. -/
structure CameraState where
  position : Vec3
  fov : ℚ
deriving DecidableEq, Repr

/-- The shell's state (`ModelViewer.tsx` lines 374-440) together with
the pieces of model/camera state the frame-effect claims compare:
`selectedMesh`, `currentModel`, `modelError`, `loading` are the React
state fields; `sceneXf` is the mounted normalized scene's transform;
`camera` is the live camera, `cameraInitial` the transform saved by
`OrbitControls` at mount; `controlsMounted` reflects whether
`orbitControlsRef.current` is non-null. -/
structure AppState where
  selectedMesh : Option (Nat × Option Mat)
  currentModel : Option String
  modelError : Option String
  loading : Bool
  sceneXf : Xform
  camera : CameraState
  cameraInitial : CameraState
  controlsMounted : Bool

/-- `ErrorBoundary.componentDidCatch` (`ErrorBoundary.tsx` lines
16-18): the message handed to `onError` is
`error?.message || "Unknown error"`; a missing or empty message string
falls back to the fixed string. -/
def boundaryMessage (msg : Option String) : String :=
  match msg with
  | some m => if m = "" then "Unknown error" else m
  | none => "Unknown error"

/-- `handleModelError` (`ModelViewer.tsx` lines 424-428). -/
def handleModelError (e : String) (s : AppState) : AppState :=
  { s with modelError := some e, loading := false, currentModel := none }

/-- `handleModelLoad` (`ModelViewer.tsx` lines 430-433). -/
def handleModelLoad (s : AppState) : AppState :=
  { s with loading := false, modelError := none }

/-- `handleModelSelect` (`ModelViewer.tsx` lines 417-422):
`clearSelection()` drops the active highlight record, then the error is
cleared, loading set, and the target recorded. -/
def handleModelSelect (p : String) (s : AppState) : AppState :=
  { s with selectedMesh := none, modelError := none, loading := true,
           currentModel := some p }

/-- `handleResetView` (`ModelViewer.tsx` lines 435-440): when the
controls ref is mounted, `orbitControlsRef.current.reset()` restores
the camera/controls to their saved initial transform; nothing else is
touched. -/
def handleResetView (s : AppState) : AppState :=
  if s.controlsMounted then { s with camera := s.cameraInitial } else s

/-- The three model-selection options (`ModelViewer.tsx` lines
381-385), as `(label, path)` pairs. -/
def modelOptions : List (String × String) :=
  [("Model 1", "/models/model1.gltf"),
   ("Model 2", "/models/model21.gltf"),
   ("Model 3", "/models/model3.gltf")]

/-- `disabled={loading}` (`ModelViewer.tsx` line 452): every mapped
model-selection button is disabled exactly when the loading flag is
set, independently of which option it is. -/
def buttonDisabled (s : AppState) (_opt : String × String) : Bool :=
  s.loading

/-- Shell state extended with a ghost counter of load sessions that
have started (a model-selection click went through) and not yet
finished (neither `onLoad` nor the error boundary has fired). -/
structure SessionState where
  app : AppState
  live : Nat

/-- External events driving the static-path shell: a user click on a
model-selection button, and completion of an in-flight load with
success or failure.  Load completions are only delivered by a mounted
loading model, i.e. while a session is in flight. -/
inductive ShellEvent where
  | selectClick (opt : String × String)
  | loadOk
  | loadErr (msg : String)

/-- One shell transition.  A click on a disabled button produces no
`onClick`, so while `loading` is set a `selectClick` is a no-op;
an enabled click runs `handleModelSelect` and opens a session;
completions run `handleModelLoad` / `handleModelError` and close the
session. -/
def sessionStep (e : ShellEvent) (s : SessionState) : SessionState :=
  match e with
  | .selectClick opt =>
      if buttonDisabled s.app opt then s
      else { app := handleModelSelect opt.2 s.app, live := s.live + 1 }
  | .loadOk =>
      if s.live = 0 then s
      else { app := handleModelLoad s.app, live := s.live - 1 }
  | .loadErr m =>
      if s.live = 0 then s
      else { app := handleModelError (boundaryMessage (some m)) s.app, live := s.live - 1 }

/-- The shell as first rendered: nothing selected, nothing loading, no
error, no live session. -/
def initialSession : SessionState :=
  { app := { selectedMesh := none, currentModel := none, modelError := none,
             loading := false, sceneXf := ⟨⟨0, 0, 0⟩, ⟨1, 1, 1⟩, 0⟩,
             camera := ⟨⟨0, 0, 16⟩, 45⟩, cameraInitial := ⟨⟨0, 0, 16⟩, 45⟩,
             controlsMounted := true }
    live := 0 }

/-- States the shell can actually be in: the initial render followed by
any sequence of events. -/
inductive ReachableSession : SessionState → Prop where
  | init : ReachableSession initialSession
  | step (e : ShellEvent) {s : SessionState} :
      ReachableSession s → ReachableSession (sessionStep e s)

/-! ## Missing-scene-root rendering -/

/-- What a model component's render produces, as far as the
missing-scene-root claim observes it. -/
inductive RenderOutcome where
  | errorMarker (label : String)
  | primitive
deriving DecidableEq, Repr

/-- `Model2`'s render (`ModelViewer.tsx` lines 149-161): an explicit
`if (!scene)` branch returns the in-scene red placeholder box with the
`Html` label; otherwise rendering proceeds with the cloned scene. -/
def model2Render (scene : Option Object3D) : Except String RenderOutcome :=
  match scene with
  | none => .ok (.errorMarker "Invalid glTF file: missing scene")
  | some _ => .ok .primitive

/-- `Model`'s render (`ModelViewer.tsx` lines 21-28): no missing-scene
check; with no scene root, `scene.clone()` dereferences `undefined` and
throws, so the exception propagates out of the render. -/
def model1Render (scene : Option Object3D) : Except String RenderOutcome :=
  match scene with
  | none => .error "TypeError: scene is undefined"
  | some _ => .ok .primitive

/-- `Model3`'s render (`ModelViewer.tsx` lines 266-274): identical to
`Model`, `scene.clone()` is called with no missing-scene check. -/
def model3Render (scene : Option Object3D) : Except String RenderOutcome :=
  match scene with
  | none => .error "TypeError: scene is undefined"
  | some _ => .ok .primitive

/-- Whether a render result is a visible in-scene error marker. -/
def rendersInSceneMarker (r : Except String RenderOutcome) : Bool :=
  match r with
  | .ok (.errorMarker _) => true
  | _ => false

/-! ## Material sharing between the cached scene and its clone

`THREE.Object3D.clone()` copies the node tree (fresh transform
vectors) but copies material fields by reference, so the cloned meshes
point at the same material objects as the cached original.  Colors of
materials live in a shared store indexed by material identity. -/

/-- The shared pool of material objects: each material id has a current
color (an RGB value). -/
structure MatStore where
  colorOf : Nat → Nat

/-- The color `'#e0e0e0'` as an RGB value. -/
def grayColor : Nat := 0xe0e0e0

/-- `Model`'s default recolor effect (`ModelViewer.tsx` lines 31-41):
traverse the cloned scene and call `child.material.color.set('#e0e0e0')`
on every mesh's material — a mutation of the shared material objects. -/
def recolorScene (matIds : List Nat) (st : MatStore) : MatStore :=
  matIds.foldl
    (fun acc i => { colorOf := fun j => if j = i then grayColor else acc.colorOf j })
    st

/-- A store whose materials all start with color `0x123456`. -/
def storeEx : MatStore := { colorOf := fun _ => 0x123456 }

/-- A mesh-bearing node of a scene tree: its local transform and its
material field, the latter a reference into the shared `MatStore`. -/
structure NodeRec where
  xf : Xform
  matId : Nat
deriving DecidableEq, Repr

/-- The mutable state of one `Model` instance next to the cached
original scene it was cloned from.  `original`/`origRootXf` are the
cached scene's part records and root transform; `clone`/`cloneRootXf`
are the per-instance copies `scene.clone()` produced — fresh node
records and a fresh root transform, but with `matId` fields copied by
reference into the one shared material store `mats`. -/
structure ModelInstanceState where
  original : List NodeRec
  origRootXf : Xform
  clone : List NodeRec
  cloneRootXf : Xform
  mats : MatStore

/-- `mesh.material = highlightMaterial` on the cloned mesh at position
`idx`: reassigns that one record's material reference, touching neither
the other records nor the material store. -/
def swapMat : List NodeRec → Nat → Nat → List NodeRec
  | [], _, _ => []
  | r :: t, 0, m => { r with matId := m } :: t
  | r :: t, Nat.succ k, m => r :: swapMat t k m

/-- The `Model` component's per-instance setup, in source order
(`ModelViewer.tsx` lines 27-67, plus optionally one `handleClick`
highlight assignment): `scene.clone()` copies the part records and the
root transform while sharing the material ids; the default-recolor
effect sets every material referenced by the cloned meshes to gray in
the shared store; normalization rewrites the clone root's transform;
a click (if any) swaps one cloned mesh's material reference to a fresh
highlight material `hlId`. -/
def modelSetup (orig : List NodeRec) (rootXf : Xform) (content : Box3)
    (mats : MatStore) (click : Option (Nat × Nat)) : ModelInstanceState :=
  let s0 : ModelInstanceState :=
    { original := orig, origRootXf := rootXf, clone := orig, cloneRootXf := rootXf,
      mats := mats }
  let s1 : ModelInstanceState :=
    { s0 with mats := recolorScene (s0.clone.map NodeRec.matId) s0.mats }
  let s2 : ModelInstanceState :=
    { s1 with cloneRootXf := (normalizeModel ⟨s1.cloneRootXf, content⟩).xf }
  match click with
  | some (idx, hlId) => { s2 with clone := swapMat s2.clone idx hlId }
  | none => s2

/-- An identity root transform. -/
def rootXf0 : Xform := ⟨⟨0, 0, 0⟩, ⟨1, 1, 1⟩, 0⟩

/-- A one-part cached scene whose part references material `0`. -/
def origEx : List NodeRec := [⟨rootXf0, 0⟩]

/-- A concrete content box for the one-part scene. -/
def contentEx : Box3 := ⟨⟨1, 1, 1⟩, ⟨3, 3, 3⟩⟩


/-! ## Helper lemmas -/

theorem applyRotX_zero (v : Vec3) : applyRotX 0 v = v := rfl

theorem applyRotX_one (v : Vec3) : applyRotX 1 v = rotX90 v := rfl

theorem Vec3.add_def (a b : Vec3) : a + b = ⟨a.x + b.x, a.y + b.y, a.z + b.z⟩ := rfl

theorem Vec3.sub_def (a b : Vec3) : a - b = ⟨a.x - b.x, a.y - b.y, a.z - b.z⟩ := rfl

/-- The corner sum of the box image of a box: `min + max` of the image
equals the sum of the images of the two extreme corners (since
`min a b + max a b = a + b` in each coordinate). -/
theorem boxUnder_sum (t : Xform) (b : Box3) :
    (boxUnder t b).min + (boxUnder t b).max = t.apply b.min + t.apply b.max := by
  simp [boxUnder, Vec3.inf, Vec3.sup, Vec3.add_def, min_add_max]

/-- After the centering step (`position.sub(center)` with `center` the
world-box midpoint), the corner sum — hence the midpoint — of the
node's world box is zero, whatever the node's initial transform. -/
theorem child_sum_zero (s : Object3D) :
    (worldBox { s with xf := { s.xf with position := s.xf.position - (worldBox s).getCenter } }).min
      + (worldBox { s with xf := { s.xf with position := s.xf.position - (worldBox s).getCenter } }).max
      = ⟨0, 0, 0⟩ := by
  simp only [worldBox, Box3.getCenter, boxUnder_sum, Xform.apply]
  simp only [Vec3.add_def, Vec3.sub_def, Vec3.smul, Vec3.mk.injEq]
  refine ⟨by ring, by ring, by ring⟩

/-- A group transform with zero position and the quarter-turn rotation
acts additively on corner sums. -/
theorem apply_sum_group (σ a c : Vec3) :
    Xform.apply ⟨⟨0, 0, 0⟩, σ, 1⟩ a + Xform.apply ⟨⟨0, 0, 0⟩, σ, 1⟩ c
      = rotX90 (Vec3.hmul σ (a + c)) := by
  simp only [Xform.apply, applyRotX_one, rotX90, Vec3.hmul, Vec3.add_def, Vec3.mk.injEq]
  refine ⟨by ring, by ring, by ring⟩

/-- `Model2`'s group-based normalization puts the world bounding-box
center exactly at the origin, for every initial transform. -/
theorem center_normalize2 (s : Object3D) :
    (worldBoxGrouped (normalizeModel2 s).1 (normalizeModel2 s).2).getCenter = ⟨0, 0, 0⟩ := by
  have h := child_sum_zero s
  simp only [worldBoxGrouped, normalizeModel2, Box3.getCenter, boxUnder_sum] at *
  rw [apply_sum_group, h]
  simp [rotX90, Vec3.hmul, Vec3.smul]

/-- The source duplicates `Model2`'s normalization verbatim in
`Model3`. -/
theorem normalizeModel3_eq (s : Object3D) : normalizeModel3 s = normalizeModel2 s := rfl

/-- Scale factor of `Model2`'s group times the pre-normalization
maximal extent is `targetSize`, when the extent is positive. -/
theorem scale2_eq (s : Object3D) (hpos : 0 < maxDim3 (worldBox s).getSize) :
    (normalizeModel2 s).1.scaleV.x * maxDim3 ((worldBox s).getSize) = targetSize := by
  simp only [normalizeModel2, if_pos hpos]
  exact div_mul_cancel₀ targetSize (ne_of_gt hpos)

/-- Scale factor applied by `Model` times the pre-normalization maximal
extent is `targetSize`, when the extent is positive. -/
theorem scale1_eq (s : Object3D) (hpos : 0 < maxDim3 (worldBox s).getSize) :
    (normalizeModel s).xf.scaleV.x * maxDim3 ((worldBox s).getSize) = targetSize := by
  simp only [normalizeModel, if_pos hpos]
  exact div_mul_cancel₀ targetSize (ne_of_gt hpos)

theorem recolor_not_mem : ∀ (ids : List Nat) (st : MatStore) (j : Nat), j ∉ ids →
    (recolorScene ids st).colorOf j = st.colorOf j := by
  intro ids
  induction ids with
  | nil => intro st j _; rfl
  | cons a t ih =>
      intro st j hj
      have h1 : j ≠ a := fun h => hj (h ▸ List.mem_cons_self a t)
      have h2 : j ∉ t := fun h => hj (List.mem_cons_of_mem a h)
      have hstep : recolorScene (a :: t) st =
          recolorScene t { colorOf := fun k => if k = a then grayColor else st.colorOf k } := rfl
      rw [hstep, ih _ j h2]
      simp [h1]

theorem recolor_mem : ∀ (ids : List Nat) (st : MatStore) (i : Nat), i ∈ ids →
    (recolorScene ids st).colorOf i = grayColor := by
  intro ids
  induction ids with
  | nil => intro st i hi; cases hi
  | cons a t ih =>
      intro st i hi
      by_cases h : i ∈ t
      · exact ih _ i h
      · have ha : i = a := by
          rcases List.mem_cons.mp hi with h' | h'
          · exact h'
          · exact absurd h' h
        subst ha
        have hstep : recolorScene (i :: t) st =
            recolorScene t { colorOf := fun k => if k = i then grayColor else st.colorOf k } := rfl
        rw [hstep, recolor_not_mem t _ i h]
        simp

/-- Invariant of the shell's load sessions: at most one session is in
flight, and one is in flight exactly while `loading` is set. -/
def SessionInv (s : SessionState) : Prop :=
  s.live ≤ 1 ∧ (s.app.loading = true ↔ s.live = 1)

theorem sessionInv_init : SessionInv initialSession := by
  simp [SessionInv, initialSession]

theorem sessionInv_step (e : ShellEvent) (s : SessionState) (h : SessionInv s) :
    SessionInv (sessionStep e s) := by
  obtain ⟨h1, h2⟩ := h
  cases e with
  | selectClick opt =>
      cases hl : s.app.loading with
      | true =>
          have hone : s.live = 1 := h2.mp hl
          simp [SessionInv, sessionStep, buttonDisabled, hl, hone]
      | false =>
          have hlive : s.live = 0 := by
            rcases Nat.lt_or_ge s.live 1 with h' | h'
            · omega
            · exfalso; have := h2.mpr (by omega); rw [hl] at this; cases this
          simp [SessionInv, sessionStep, buttonDisabled, hl, handleModelSelect, hlive]
  | loadOk =>
      by_cases hz : s.live = 0
      · have hload : s.app.loading = false := by
          cases hload : s.app.loading
          · rfl
          · have := h2.mp hload; omega
        simp [SessionInv, sessionStep, hz, hload]
      · simp [SessionInv, sessionStep, hz, handleModelLoad]
        omega
  | loadErr m =>
      by_cases hz : s.live = 0
      · have hload : s.app.loading = false := by
          cases hload : s.app.loading
          · rfl
          · have := h2.mp hload; omega
        simp [SessionInv, sessionStep, hz, hload]
      · simp [SessionInv, sessionStep, hz, handleModelError]
        omega

theorem sessionInv_reachable (s : SessionState) (h : ReachableSession s) : SessionInv s := by
  induction h with
  | init => exact sessionInv_init
  | step e h ih => exact sessionInv_step e _ ih

/-! ## Claim theorems -/

/-- Claim C1, counterexample.  The claim asserts that after the
normalization step of each model component the bounding-box center of
the normalized graph lies at the world origin.  For the `Model`
component this is false: on the non-degenerate scene with content box
`[1,3]³` and identity root transform, the normalized world bounding-box
center is `(6, -19/2, 6)`, not the origin — `Model` subtracts the
center from the node's own position but then scales and rotates that
same node (whose own scale does not act on its own position) and adds
the `0.25 * size.y` offset. -/
theorem C1_center_not_origin_for_Model :
    0 < maxDim3 ((worldBox sceneEx).getSize) ∧
    (worldBox (normalizeModel sceneEx)).getCenter ≠ ⟨0, 0, 0⟩ := by
  constructor
  · norm_num [maxDim3, worldBox, boxUnder, Xform.apply, Box3.getSize, sceneEx, freshScene,
      applyRotX_zero, Vec3.hmul, Vec3.inf, Vec3.sup, Vec3.add_def, Vec3.sub_def, min_def, max_def]
  · norm_num [normalizeModel, maxDim3, worldBox, boxUnder, Xform.apply, Box3.getSize,
      Box3.getCenter, sceneEx, freshScene, targetSize,
      applyRotX_zero, applyRotX_one, rotX90, Vec3.hmul, Vec3.smul, Vec3.inf, Vec3.sup,
      Vec3.add_def, Vec3.sub_def, min_def, max_def, Vec3.mk.injEq]

/-- Claim C1, amended.  For every scene node with non-degenerate extent
(`0 < max(size.x, size.y, size.z)`): `Model2`'s and `Model3`'s
normalization place the world bounding-box center exactly at the
origin, and for all three components the applied uniform scale times
the pre-normalization maximal extent equals `targetSize = 8` exactly;
but `Model`'s normalized bounding-box center is in general not at the
origin (see the counterexample). -/
theorem C1_amended_normalization (s : Object3D)
    (hpos : 0 < maxDim3 ((worldBox s).getSize)) :
    (worldBoxGrouped (normalizeModel2 s).1 (normalizeModel2 s).2).getCenter = ⟨0, 0, 0⟩ ∧
    (normalizeModel2 s).1.scaleV.x * maxDim3 ((worldBox s).getSize) = targetSize ∧
    (worldBoxGrouped (normalizeModel3 s).1 (normalizeModel3 s).2).getCenter = ⟨0, 0, 0⟩ ∧
    (normalizeModel3 s).1.scaleV.x * maxDim3 ((worldBox s).getSize) = targetSize ∧
    (normalizeModel s).xf.scaleV.x * maxDim3 ((worldBox s).getSize) = targetSize := by
  refine ⟨center_normalize2 s, scale2_eq s hpos, ?_, ?_, scale1_eq s hpos⟩
  · rw [normalizeModel3_eq]; exact center_normalize2 s
  · rw [normalizeModel3_eq]; exact scale2_eq s hpos

/-- Witness for C1 (amended) at the concrete scene `sceneEx`. -/
theorem C1_amended_normalization_witness :
    0 < maxDim3 ((worldBox sceneEx).getSize) ∧
    ((worldBoxGrouped (normalizeModel2 sceneEx).1 (normalizeModel2 sceneEx).2).getCenter
        = ⟨0, 0, 0⟩ ∧
      (normalizeModel2 sceneEx).1.scaleV.x * maxDim3 ((worldBox sceneEx).getSize) = targetSize ∧
      (worldBoxGrouped (normalizeModel3 sceneEx).1 (normalizeModel3 sceneEx).2).getCenter
        = ⟨0, 0, 0⟩ ∧
      (normalizeModel3 sceneEx).1.scaleV.x * maxDim3 ((worldBox sceneEx).getSize) = targetSize ∧
      (normalizeModel sceneEx).xf.scaleV.x * maxDim3 ((worldBox sceneEx).getSize) = targetSize) := by
  have h : 0 < maxDim3 ((worldBox sceneEx).getSize) := by
    norm_num [maxDim3, worldBox, boxUnder, Xform.apply, Box3.getSize, sceneEx, freshScene,
      applyRotX_zero, Vec3.hmul, Vec3.inf, Vec3.sup, Vec3.add_def, Vec3.sub_def, min_def, max_def]
  exact ⟨h, C1_amended_normalization sceneEx h⟩

/-- Claim C2.  From any state with no active component highlight and no
shell selection where part `A` carries a base material: selecting `A`
records exactly that material as `A`'s original; then selecting a
distinct part `B` restores `A`'s appearance to exactly that recorded
original and leaves `B` carrying the freshly created emphasis
(highlight) material; and selecting `A` twice keeps the original record
at `A`'s base material (the second click restores the previous
highlight before re-reading `mesh.material`, so the emphasis appearance
is never re-captured as the original, in both the component record and
the shell record). -/
theorem C2_selection_restores_and_records (A B a : Nat) (s : ViewerState) (hAB : A ≠ B)
    (hHM : s.highlightedMesh = none) (hSel : s.selectedMesh = none)
    (hA : s.material A = some (Mat.base a)) :
    (handleClick A s).originalMaterial = some (Mat.base a) ∧
    (handleClick B (handleClick A s)).material A = some (Mat.base a) ∧
    (handleClick B (handleClick A s)).material B = some (Mat.hl ((handleClick A s).fresh)) ∧
    (handleClick A (handleClick A s)).originalMaterial = some (Mat.base a) ∧
    (handleClick A (handleClick A s)).selectedMesh = some (A, some (Mat.base a)) := by
  simp [handleClick, setMat, hHM, hSel, hA, hAB, Ne.symm hAB]

/-- Witness for C2 at parts `0`, `1` of the freshly mounted viewer. -/
theorem C2_selection_witness :
    (handleClick 0 initialViewer).originalMaterial = some (Mat.base 0) ∧
    (handleClick 1 (handleClick 0 initialViewer)).material 0 = some (Mat.base 0) ∧
    (handleClick 1 (handleClick 0 initialViewer)).material 1
      = some (Mat.hl ((handleClick 0 initialViewer).fresh)) ∧
    (handleClick 0 (handleClick 0 initialViewer)).originalMaterial = some (Mat.base 0) ∧
    (handleClick 0 (handleClick 0 initialViewer)).selectedMesh = some (0, some (Mat.base 0)) :=
  C2_selection_restores_and_records 0 1 0 initialViewer (by decide) rfl rfl rfl

/-- Claim C3, failing-input evaluation.  On the very first selection
(freshly mounted viewer, part `0` carrying material `base 0`), a 2000 ms
auto-revert timeout is scheduled whose captured restore value is the
`originalMaterial` of the render closure that created the handler —
`none` (null), not the original recorded at selection.  When it fires
with the part still carrying the emphasis material, the guard passes
and the part's material is set to `none` instead of `base 0`; the
highlight state does return to idle.  The code's own recording of the
original (`setOriginalMaterial(mesh.material)`) shows the intent was to
restore `base 0`. -/
theorem C3_stale_timeout_restores_null :
    (handleClick 0 initialViewer).pending = [⟨0, Mat.hl 0, none, 2000⟩] ∧
    (handleClick 0 initialViewer).originalMaterial = some (Mat.base 0) ∧
    (handleClick 0 initialViewer).material 0 = some (Mat.hl 0) ∧
    initialViewer.material 0 = some (Mat.base 0) ∧
    (fireTimeout ⟨0, Mat.hl 0, none, 2000⟩ (handleClick 0 initialViewer)).material 0 = none ∧
    (fireTimeout ⟨0, Mat.hl 0, none, 2000⟩ (handleClick 0 initialViewer)).highlightedMesh
      = none := by
  decide

/-- Claim C4.  For every scene graph with zero extent on all axes
(content box collapsed to a single point, any root position), every
model component's normalization takes the `maxDim > 0 ? ... : 1`
fallback, so the applied scale is `1` — the division by `maxDim` is
never evaluated and nothing throws. -/
theorem C4_degenerate_scale_one (p0 c : Vec3) :
    (normalizeModel (freshScene p0 c c)).xf.scaleV = ⟨1, 1, 1⟩ ∧
    (normalizeModel2 (freshScene p0 c c)).1.scaleV = ⟨1, 1, 1⟩ ∧
    (normalizeModel3 (freshScene p0 c c)).1.scaleV = ⟨1, 1, 1⟩ := by
  simp [normalizeModel, normalizeModel2, normalizeModel3, worldBox, boxUnder, freshScene,
    Xform.apply, applyRotX_zero, Vec3.hmul, Vec3.inf, Vec3.sup, Box3.getSize,
    Vec3.sub_def, Vec3.add_def, maxDim3, targetSize]

/-- Claim C5, counterexample.  The claim asserts that every model
component applies an additional upward translation of `0.25 * size.y`
after centering, scaling and rotation.  On the scene with content box
`[1,3]³` (`size.y = 2`, so the required offset is `1/2`), `Model2`'s
and `Model3`'s normalization leave the group position at `(0,0,0)` and
the child position at exactly the centering translation `(-2,-2,-2)`,
and the normalized world bounding-box center has `y = 0`, not the
`y = 1/2` the claimed post-normalization upward translation would
produce. -/
theorem C5_no_height_offset_counterexample :
    (1 / 4 : ℚ) * ((worldBox sceneEx).getSize).y = 1 / 2 ∧
    (normalizeModel2 sceneEx).1.position = ⟨0, 0, 0⟩ ∧
    (normalizeModel2 sceneEx).2.xf.position = ⟨-2, -2, -2⟩ ∧
    (normalizeModel3 sceneEx).1.position = ⟨0, 0, 0⟩ ∧
    (normalizeModel3 sceneEx).2.xf.position = ⟨-2, -2, -2⟩ ∧
    (worldBoxGrouped (normalizeModel2 sceneEx).1 (normalizeModel2 sceneEx).2).getCenter.y = 0 ∧
    (0 : ℚ) ≠ 1 / 2 := by
  norm_num [normalizeModel2, normalizeModel3, worldBoxGrouped, worldBox, boxUnder, Xform.apply,
    Box3.getSize, Box3.getCenter, sceneEx, freshScene, targetSize, maxDim3,
    applyRotX_zero, applyRotX_one, rotX90, Vec3.hmul, Vec3.smul, Vec3.inf, Vec3.sup,
    Vec3.add_def, Vec3.sub_def, min_def, max_def, Vec3.mk.injEq]

/-- Claim C5, amended.  Only the `Model` component applies the
additional `0.25 * size.y` upward translation: its normalized position
is exactly the centering translation with `size.y / 4` added to the
`y` coordinate.  `Model2` and `Model3` apply no such translation: their
group position stays `(0,0,0)`, their child position is exactly the
centering translation, and their normalized world bounding-box center
remains at the origin. -/
theorem C5_amended_height_offset (s : Object3D) :
    (normalizeModel s).xf.position =
      ⟨(s.xf.position - (worldBox s).getCenter).x,
       (s.xf.position - (worldBox s).getCenter).y + (worldBox s).getSize.y * (1 / 4),
       (s.xf.position - (worldBox s).getCenter).z⟩ ∧
    (normalizeModel2 s).1.position = ⟨0, 0, 0⟩ ∧
    (normalizeModel2 s).2.xf.position = s.xf.position - (worldBox s).getCenter ∧
    (normalizeModel3 s).1.position = ⟨0, 0, 0⟩ ∧
    (normalizeModel3 s).2.xf.position = s.xf.position - (worldBox s).getCenter ∧
    (worldBoxGrouped (normalizeModel2 s).1 (normalizeModel2 s).2).getCenter = ⟨0, 0, 0⟩ :=
  ⟨rfl, rfl, rfl, rfl, rfl, center_normalize2 s⟩

/-- Claim C6.  For every error surfaced through the `ErrorBoundary` to
`handleModelError` (with any message, including a missing or empty
one), the resulting shell state has `loading = false`, the selected
target cleared to `none`, and a non-empty error message — an error with
no message text is replaced by the fixed fallback `"Unknown error"`. -/
theorem C6_error_handler_state (msg : Option String) (s : AppState) :
    (handleModelError (boundaryMessage msg) s).loading = false ∧
    (handleModelError (boundaryMessage msg) s).currentModel = none ∧
    (handleModelError (boundaryMessage msg) s).modelError = some (boundaryMessage msg) ∧
    boundaryMessage msg ≠ "" := by
  refine ⟨rfl, rfl, rfl, ?_⟩
  cases msg with
  | none => simp [boundaryMessage]
  | some m =>
      by_cases h : m = ""
      · simp [boundaryMessage, h]
      · simp [boundaryMessage, h]

/-- Claim C7, counterexample.  The claim asserts that every model
component renders a visible in-scene error marker when the decoded
asset has a missing scene root.  `Model` and `Model3` have no
missing-scene check: `scene.clone()` dereferences the absent scene and
throws, producing no in-scene marker. -/
theorem C7_missing_scene_throws_counterexample :
    rendersInSceneMarker (model1Render none) = false ∧
    rendersInSceneMarker (model3Render none) = false := by
  decide

/-- Claim C7, amended.  Only `Model2` guards against a missing scene
root and renders the visible in-scene error marker (red placeholder box
with the label); `Model` and `Model3` throw, so their failure surfaces
through the error boundary as a UI panel, not an in-scene marker. -/
theorem C7_amended_missing_scene :
    model2Render none = Except.ok (RenderOutcome.errorMarker "Invalid glTF file: missing scene") ∧
    rendersInSceneMarker (model2Render none) = true ∧
    model1Render none = Except.error "TypeError: scene is undefined" ∧
    model3Render none = Except.error "TypeError: scene is undefined" :=
  ⟨rfl, rfl, rfl, rfl⟩

/-- Claim C8, counterexample.  The claim asserts the cached original
scene graph's appearances are left entirely unchanged by the
per-instance setup.  `clone()` shares material objects, and `Model`'s
default recolor mutates them: on a cached scene with one part whose
shared material starts at color `0x123456`, after `Model`'s setup the
shared material referenced by the original part has color `0xe0e0e0`. -/
theorem C8_shared_material_mutated_counterexample :
    (modelSetup origEx rootXf0 contentEx storeEx none).mats.colorOf 0 = grayColor ∧
    storeEx.colorOf 0 = 0x123456 ∧
    grayColor ≠ 0x123456 :=
  ⟨rfl, rfl, by decide⟩

/-- Claim C8, amended.  For every cached scene, shared material store,
and optional highlight click, `Model`'s setup pipeline (clone, default
recolor, normalization, highlight): (1, 2) leaves the cached original's
part records — transforms and material references — and the original
root transform entirely unchanged; (3) the clone still references
exactly the original's material ids (the sharing `clone()` creates);
(4) normalization rewrites only the clone root's transform, to exactly
`normalizeModel` of the cloned root; (5) the highlight swap mutates no
shared material; but (6) every shared material referenced by the
original's parts ends with color `#e0e0e0` — the cached original's
appearance is changed whenever a part's color was not already that
gray — while (7) materials not referenced by the scene keep their
color. -/
theorem C8_amended_clone_preserves_original (orig : List NodeRec) (rootXf : Xform)
    (content : Box3) (mats : MatStore) (click : Option (Nat × Nat)) :
    (modelSetup orig rootXf content mats click).original = orig ∧
    (modelSetup orig rootXf content mats click).origRootXf = rootXf ∧
    (modelSetup orig rootXf content mats none).clone.map NodeRec.matId
      = orig.map NodeRec.matId ∧
    (modelSetup orig rootXf content mats none).cloneRootXf
      = (normalizeModel ⟨rootXf, content⟩).xf ∧
    (∀ idx hlId, (modelSetup orig rootXf content mats (some (idx, hlId))).mats
      = (modelSetup orig rootXf content mats none).mats) ∧
    (∀ n, n ∈ orig →
      (modelSetup orig rootXf content mats click).mats.colorOf n.matId = grayColor) ∧
    (∀ j, (∀ n, n ∈ orig → n.matId ≠ j) →
      (modelSetup orig rootXf content mats click).mats.colorOf j = mats.colorOf j) := by
  have hmats : (modelSetup orig rootXf content mats click).mats
      = recolorScene (orig.map NodeRec.matId) mats := by
    cases click with
    | none => rfl
    | some c => cases c; rfl
  have horig : (modelSetup orig rootXf content mats click).original = orig := by
    cases click with
    | none => rfl
    | some c => cases c; rfl
  have hroot : (modelSetup orig rootXf content mats click).origRootXf = rootXf := by
    cases click with
    | none => rfl
    | some c => cases c; rfl
  refine ⟨horig, hroot, rfl, rfl, fun idx hlId => rfl, ?_, ?_⟩
  · intro n hn
    rw [hmats]
    exact recolor_mem (orig.map NodeRec.matId) mats n.matId
      (List.mem_map_of_mem NodeRec.matId hn)
  · intro j hj
    rw [hmats]
    refine recolor_not_mem (orig.map NodeRec.matId) mats j ?_
    intro hmem
    rcases List.mem_map.mp hmem with ⟨n, hn, hid⟩
    exact hj n hn hid

/-- Witness for C8 (amended) on the concrete one-part scene: the
original is preserved, its referenced shared material ends gray, and an
unreferenced material keeps its color. -/
theorem C8_amended_clone_preserves_original_witness :
    (modelSetup origEx rootXf0 contentEx storeEx none).original = origEx ∧
    (modelSetup origEx rootXf0 contentEx storeEx none).origRootXf = rootXf0 ∧
    (modelSetup origEx rootXf0 contentEx storeEx none).mats.colorOf
      (NodeRec.mk rootXf0 0).matId = grayColor ∧
    (modelSetup origEx rootXf0 contentEx storeEx none).mats.colorOf 1
      = storeEx.colorOf 1 := by
  have h := C8_amended_clone_preserves_original origEx rootXf0 contentEx storeEx none
  refine ⟨h.1, h.2.1, h.2.2.2.2.2.1 ⟨rootXf0, 0⟩ (List.mem_singleton.mpr rfl), ?_⟩
  refine h.2.2.2.2.2.2 1 ?_
  intro n hn
  rw [List.mem_singleton.mp hn]
  decide

/-- Claim C9.  The reset-view action touches only the camera: for every
shell state, after `handleResetView` the selected target, loading flag,
error message, active highlight record and normalized scene transform
are unchanged, and the camera is restored to the saved initial
transform exactly when the controls ref is mounted. -/
theorem C9_reset_view_frame (s : AppState) :
    (handleResetView s).currentModel = s.currentModel ∧
    (handleResetView s).loading = s.loading ∧
    (handleResetView s).modelError = s.modelError ∧
    (handleResetView s).selectedMesh = s.selectedMesh ∧
    (handleResetView s).sceneXf = s.sceneXf ∧
    (handleResetView s).camera = (if s.controlsMounted then s.cameraInitial else s.camera) := by
  unfold handleResetView
  by_cases h : s.controlsMounted <;> simp [h]

/-- Claim C10.  In every reachable shell state: while the loading flag
is set, every model-selection button is disabled (so a click starts no
new session), and at most one load session is live. -/
theorem C10_loading_disables_selection (s : SessionState) (h : ReachableSession s) :
    (s.app.loading = true → ∀ opt, opt ∈ modelOptions → buttonDisabled s.app opt = true) ∧
    s.live ≤ 1 := by
  have hinv := sessionInv_reachable s h
  exact ⟨fun hl opt _ => by simp [buttonDisabled, hl], hinv.1⟩

/-- Witness for C10 at the initial shell state. -/
theorem C10_loading_disables_selection_witness :
    (initialSession.app.loading = true →
      ∀ opt, opt ∈ modelOptions → buttonDisabled initialSession.app opt = true) ∧
    initialSession.live ≤ 1 :=
  C10_loading_disables_selection initialSession ReachableSession.init
